import Mathlib

/-
  Verification of the sensiflow image-processor controller.

  Shallow embedding of the container lifecycle controller
  (src/docker_manager/docker_api.py), the message-driven dispatcher
  (src/rabbitmq/rabbitmq_handler.py, src/rabbitmq/rabbitmq_client.py)
  and the instance store layer
  (src/instance_manager/instance/instance_service.py,
   src/instance_manager/instance/instance_dao.py).
-/

namespace ImageProcessor

/-! ## String helpers: Python semantics of str.split and substring test -/

/-- Python str.split(sep) for a one-character separator, applied to the
character list of the string. Always returns a nonempty list. -/
def splitOnChar (sep : Char) : List Char → List (List Char)
  | [] => [[]]
  | c :: cs =>
    let r := splitOnChar sep cs
    if c = sep then [] :: r
    else (c :: r.headD []) :: r.tail

/-- Python str.split(sep) with a one-character separator, as a function on
strings. -/
def pySplit (s : String) (sep : Char) : List String :=
  (splitOnChar sep s.data).map String.mk

/-- Containment of a character sequence as a contiguous subsequence,
modelling the Python test `pat in line`. -/
def containsSeq (pat : List Char) : List Char → Bool
  | [] => pat.isEmpty
  | c :: cs => pat.isPrefixOf (c :: cs) || containsSeq pat cs

/-- Python substring test `pat in s`. -/
def strContains (s pat : String) : Bool :=
  containsSeq pat.data s.data

/-! ## Goal-detection scan (DockerApi.__wait_goals, goal_reached) -/

/-- Result of the log scan: either a goal outcome (reached, detail) as the
Python tuple, or the uncaught IndexError that `decodedLine.split("]")[1]`
raises when the error line contains no "]". -/
inductive ScanResult
  | outcome (reached : Bool) (detail : String)
  | indexError
deriving DecidableEq, Repr

/-- Embedding of the inner function goal_reached of DockerApi.__wait_goals
(docker_api.py lines 248-263): lines are inspected in order; a line
containing "[ERROR" returns (False, line.split("]")[1]) where the index can
be out of range; otherwise a line containing "[SUCCESS 4]" returns
(True, ""); stream exhaustion returns (False, "Did not reach final goal"). -/
def goal_reached : List String → ScanResult
  | [] => .outcome false "Did not reach final goal"
  | line :: rest =>
    if strContains line "[ERROR" then
      match (pySplit line ']').get? 1 with
      | some err => .outcome false err
      | none => .indexError
    else if strContains line "[SUCCESS 4]" then .outcome true ""
    else goal_reached rest

/-! ## Container engine model (DockerApi) -/

/-- A managed container as the controller sees it: its name, the
engine-reported status string cached at retrieval time, and the log lines
its log stream will deliver to the goal scan. -/
structure Container where
  name : String
  status : String
  logs : List String
deriving DecidableEq, Repr

/-- The engine state: the list of containers currently present. -/
abbrev Engine := List Container

/-- Container lookup by name, modelling client.containers.get. -/
def Engine.findC (e : Engine) (n : String) : Option Container :=
  e.find? (fun x => x.name == n)

/-- Engine state after a container named n has been removed. -/
def Engine.removeC (e : Engine) (n : String) : Engine :=
  e.filter (fun x => x.name != n)

/-- Typed errors raised by the controller. ContainerNotFound,
ContainerExitedError and ContainerGoalTimeout come from
docker_manager/exceptions; indexErr models the uncaught Python IndexError
raised by the goal scan when an error-marker line has no "]". -/
inductive DockerErr
  | containerNotFound (name : String)
  | containerExited (name : String) (detail : String)
  | goalTimeout (name : String)
  | indexErr
deriving DecidableEq, Repr

/-- Blocking engine operations issued by DockerApi.__wait_container_removal,
in order. -/
inductive EngineOp
  | stop (timeout : Nat)
  | waitExit
  | removeForce
  | removePlain
deriving DecidableEq, Repr

/-- Embedding of DockerApi.__wait_container_removal (docker_api.py lines
154-183): if the cached status is not "exited" the container is stopped with
the grace timeout; then, if force, it is removed with force=True, else the
call waits for the natural exit and removes without force. Returns the
ordered list of engine operations issued. -/
def wait_container_removal (c : Container) (force : Bool) (timeout : Nat) :
    List EngineOp :=
  (if c.status != "exited" then [EngineOp.stop timeout] else []) ++
    (if force then [EngineOp.removeForce] else [EngineOp.waitExit, EngineOp.removePlain])

/-- Embedding of DockerApi.remove_container (docker_api.py lines 121-152):
resolves the container via get_container, raising ContainerNotFound when
absent; otherwise runs __wait_container_removal, after which the container
is no longer in the engine. Returns the new engine state and the operation
trace. -/
def remove_container (e : Engine) (n : String) (force : Bool) (timeout : Nat) :
    Except DockerErr (Engine × List EngineOp) :=
  match e.findC n with
  | none => .error (.containerNotFound n)
  | some c => .ok (e.removeC n, wait_container_removal c force timeout)

/-- Embedding of DockerApi.__wait_goals (docker_api.py lines 233-278): the
goal scan runs under asyncio.wait_for with a timeout. The timedOut flag
selects the outcome of that race. On timeout the controller calls
remove_container(name, force=True) and raises ContainerGoalTimeout(name);
on a scan outcome with reached=False it calls remove_container(name,
force=True) and raises ContainerExitedError(name, detail); on reached=True
it returns normally; an IndexError from the scan propagates uncaught, with
no removal. The engine state is returned in every case. -/
def wait_goals (e : Engine) (c : Container) (timedOut : Bool) :
    Engine × Except DockerErr Unit :=
  if timedOut then
    match remove_container e c.name true 5 with
    | .ok (e2, _) => (e2, .error (.goalTimeout c.name))
    | .error err => (e, .error err)
  else
    match goal_reached c.logs with
    | .outcome true _ => (e, .ok ())
    | .outcome false d =>
      match remove_container e c.name true 5 with
      | .ok (e2, _) => (e2, .error (.containerExited c.name d))
      | .error err => (e, .error err)
    | .indexError => (e, .error .indexErr)

/-- Embedding of DockerApi.run_container (docker_api.py lines 185-216): the
container is created and started (entering the engine with status "running"
and the given upcoming log lines), then __wait_goals runs on it. -/
def run_container (e : Engine) (n : String) (logs : List String)
    (timedOut : Bool) : Engine × Except DockerErr Unit :=
  let c : Container := ⟨n, "running", logs⟩
  wait_goals (c :: e) c timedOut

/-- Embedding of DockerApi.start_container (docker_api.py lines 322-343):
resolves the container (ContainerNotFound when absent), starts it (its
status becomes "running"), then runs __wait_goals on it. -/
def start_container (e : Engine) (n : String) (timedOut : Bool) :
    Engine × Except DockerErr Unit :=
  match e.findC n with
  | none => (e, .error (.containerNotFound n))
  | some c =>
    let c2 : Container := ⟨c.name, "running", c.logs⟩
    let e2 := e.map (fun x => if x.name == n then c2 else x)
    wait_goals e2 c2 timedOut

/-! ## Message-driven dispatcher model (rabbitmq_handler.py) -/

/-- Modelled from the spec: the Action enum of instance_manager/message is
not under src/; per §3 the closed action set is CREATE, REMOVE, PAUSE,
RESUME, looked up by name. -/
inductive Action
  | CREATE
  | REMOVE
  | PAUSE
  | RESUME
deriving DecidableEq, Repr

/-- Modelled from the spec: Action[name] enum lookup by member name;
an unknown name raises KeyError, modelled by none. -/
def parseAction : String → Option Action
  | "CREATE" => some Action.CREATE
  | "REMOVE" => some Action.REMOVE
  | "PAUSE" => some Action.PAUSE
  | "RESUME" => some Action.RESUME
  | _ => none

/-- Decoded inbound control message body (UTF-8 JSON with fields action,
device_id, optional device_stream_url). -/
structure MessageBody where
  action : String
  device_id : String
  device_stream_url : Option String
deriving DecidableEq, Repr

/-- Outbound acknowledgment variants. Modelled from the spec: the
AckStatusMessage and AckDeleteMessage dataclasses of instance_manager/message
are not under src/; their fields are taken from §3 and the constructor calls
in rabbitmq_handler.py. -/
inductive Ack
  | statusAck (code : Nat) (device_id : String) (state : String) (message : String)
  | deleteAck (device_id : String)
deriving DecidableEq, Repr

/-- The two outbound queues the dispatcher publishes to; their concrete
names are configuration-supplied. -/
inductive QueueId
  | statusQueue
  | deleteQueue
deriving DecidableEq, Repr

/-- Embedding of RabbitMQClient.process_message (rabbitmq_handler.py lines
120-171). The body is decoded before the try block, so an unknown action
name propagates as a decode failure (Except.error). Inside the try, the
handler outcome is given as handlerResult (ok, or error carrying str(e)).
On success a REMOVE action publishes one AckDeleteMessage(device_id) to the
delete queue and every other action publishes one AckStatusMessage(2000,
device_id, state=action string from the body, message="OK") to the status
queue; on failure the except clause publishes one AckStatusMessage(4000,
device_id, state, message=str(e)) to the status queue regardless of action.
The function returns the ordered list of published (queue, ack) pairs. -/
def process_message (body : MessageBody) (handlerResult : Except String Unit) :
    Except Unit (List (QueueId × Ack)) :=
  match parseAction body.action with
  | none => .error ()
  | some a =>
    match handlerResult with
    | .ok _ =>
      if a = Action.REMOVE then
        .ok [(QueueId.deleteQueue, Ack.deleteAck body.device_id)]
      else
        .ok [(QueueId.statusQueue, Ack.statusAck 2000 body.device_id body.action "OK")]
    | .error e =>
      .ok [(QueueId.statusQueue, Ack.statusAck 4000 body.device_id body.action e)]

/-- Observable events of the consume loop for one delivered message. -/
inductive Event
  | scheduleHandler
  | ackDelivery
  | handlerCompleted
deriving DecidableEq, Repr

/-- aio_pika message.process() context: the body events happen, then the
delivery is acknowledged when the context exits without exception. -/
def processContext (body : List Event) : List Event :=
  body ++ [Event.ackDelivery]

/-- The body of the async with block in RabbitMQClient.consume
(rabbitmq_handler.py lines 81-90): it only schedules the handler through
loop.run_in_executor without awaiting the returned future, so the only event
inside the context is the scheduling. -/
def consumeBody : List Event := [Event.scheduleHandler]

/-- Event trace of the consume loop for one delivered message
(rabbitmq_handler.py lines 79-90): the message.process() context runs the
fire-and-forget scheduling and acknowledges on exit; the scheduled
process_message task only runs, and completes, after the loop body has
returned control to the event loop. -/
def consume_message_trace : List Event :=
  processContext consumeBody ++ [Event.handlerCompleted]

/-! ## Instance store model (instance_dao.py, instance_service.py) -/

/-- Instance status set, from the spec §3 and the CHECK constraint in the
test schema (tests/instance_service_test.py). -/
inductive InstanceStatus
  | ACTIVE
  | INACTIVE
  | PAUSED
deriving DecidableEq, Repr

/-- Status member name, as used by instance.status.name in the DAO. -/
def InstanceStatus.nameStr : InstanceStatus → String
  | .ACTIVE => "ACTIVE"
  | .INACTIVE => "INACTIVE"
  | .PAUSED => "PAUSED"

/-- The Instance entity: id, status, created_at, updated_at. Timestamps are
modelled as integers. The status column stores exactly the enum member
names (CHECK constraint), so rows are modelled with the enum directly. -/
structure Instance where
  id : String
  status : InstanceStatus
  created_at : Int
  updated_at : Int
deriving DecidableEq, Repr

/-- Errors of the instance management layer. DomainLogicError and
InstanceNotFound come from instance_manager/exception; driverTypeError
models the TypeError the psycopg driver raises when a query with positional
placeholders receives a mapping of parameters; duplicateKey models the
UNIQUE violation on inserting an existing id. -/
inductive StoreErr
  | domainLogicError
  | instanceNotFound (id : String)
  | driverTypeError
  | duplicateKey (id : String)
deriving DecidableEq, Repr

/-- Modelled from the spec: the Instance dataclass
(instance_manager/instance/instance.py) is not under src/. Per §3 the
invariant updated_at >= created_at is rejected before persistence, and the
test test_update_instance_with_updated_at_before_created_at expects a
DomainLogicError for such a pair, so construction validates the
timestamps. -/
def mkInstance (id : String) (st : InstanceStatus) (c u : Int) :
    Except StoreErr Instance :=
  if u < c then .error .domainLogicError else .ok ⟨id, st, c, u⟩

/-- The instance table: rows keyed by the UNIQUE id column. -/
abbrev Db := List Instance

/-- Row lookup by id. -/
def Db.findRow (db : Db) (id : String) : Option Instance :=
  db.find? (fun r => r.id == id)

/-- Embedding of InstanceDAO.get_instance (instance_dao.py lines 19-30):
SELECT by id; a missing row yields None, a present row is rebuilt as an
Instance. -/
def dao_get_instance (db : Db) (id : String) : Option Instance :=
  db.findRow id

/-- Embedding of InstanceDAO.create_instance (instance_dao.py lines 32-49):
INSERT of (id, status.name, created_at, updated_at) with RETURNING id; the
UNIQUE constraint on id rejects a duplicate insert, otherwise the returned
generated id is the inserted id. -/
def dao_create_instance (db : Db) (inst : Instance) :
    Except StoreErr (Db × String) :=
  if (db.findRow inst.id).isSome then .error (.duplicateKey inst.id)
  else .ok (inst :: db, inst.id)

/-- Embedding of InstanceDAO.update_instance (instance_dao.py lines 51-71):
the UPDATE query with positional placeholders is executed twice, first with
the positional tuple (status.name, created_at, updated_at, id), then again
with asdict(instance), a mapping; the driver rejects a mapping for a
positional-placeholder query with a TypeError, so the second execute always
raises before a row count is returned. -/
def dao_update_instance (db : Db) (inst : Instance) :
    Except StoreErr (Db × Nat) :=
  let db1 := db.map (fun r => if r.id == inst.id then inst else r)
  let rc1 := db.countP (fun r => r.id == inst.id)
  have _ : Db × Nat := (db1, rc1)
  .error .driverTypeError

/-- Embedding of InstanceDAO.delete_instance (instance_dao.py lines 73-79):
DELETE by id, returning the affected row count. -/
def dao_delete_instance (db : Db) (id : String) : Db × Nat :=
  (db.filter (fun r => r.id != id), db.countP (fun r => r.id == id))

/-- Embedding of InstanceService.get_instance (instance_service.py lines
24-31): a None from the DAO becomes a raised InstanceNotFound(id); a row is
returned as is. -/
def service_get_instance (db : Db) (id : String) : Except StoreErr Instance :=
  match dao_get_instance db id with
  | none => .error (.instanceNotFound id)
  | some inst => .ok inst

/-- Embedding of InstanceService.update_instance (instance_service.py lines
47-54): the DAO update runs inside a transaction that rolls back on an
exception; a zero row count becomes a raised InstanceNotFound, otherwise
the service returns updated_rows == 1. -/
def service_update_instance (db : Db) (inst : Instance) :
    Except StoreErr (Db × Bool) :=
  match dao_update_instance db inst with
  | .error err => .error err
  | .ok (db2, n) =>
    if n = 0 then .error (.instanceNotFound inst.id) else .ok (db2, n == 1)

/-- Embedding of InstanceService.delete_instance (instance_service.py lines
56-64): a zero row count becomes a raised InstanceNotFound, otherwise the
service returns deleted_rows == 1. -/
def service_delete_instance (db : Db) (id : String) :
    Except StoreErr (Db × Bool) :=
  match dao_delete_instance db id with
  | (db2, n) =>
    if n = 0 then .error (.instanceNotFound id) else .ok (db2, n == 1)

/-- Embedding of the persistence step of InstanceService.create_instance
(instance_service.py lines 33-45): the DAO insert runs inside a transaction;
its row becomes visible only if no exception occurs. -/
def service_create_instance (db : Db) (inst : Instance) :
    Except StoreErr (Db × String) :=
  dao_create_instance db inst

/-- Invariant of the persisted table: every row satisfies
created_at <= updated_at. -/
def rowInv (db : Db) : Prop :=
  ∀ r ∈ db, r.created_at ≤ r.updated_at

/-! ## Helper lemmas -/

theorem findC_removeC (e : Engine) (n : String) :
    Engine.findC (Engine.removeC e n) n = none := by
  induction e with
  | nil => rfl
  | cons x xs ih =>
    by_cases h : x.name = n
    · have hdrop : Engine.removeC (x :: xs) n = Engine.removeC xs n := by
        simp [Engine.removeC, List.filter_cons, h]
      rw [hdrop]; exact ih
    · have hkeep : Engine.removeC (x :: xs) n = x :: Engine.removeC xs n := by
        simp [Engine.removeC, List.filter_cons, h]
      rw [hkeep]
      have hskip : Engine.findC (x :: Engine.removeC xs n) n =
          Engine.findC (Engine.removeC xs n) n := by
        simp [Engine.findC, List.find?_cons, h]
      rw [hskip]; exact ih

theorem wait_goals_failure (e : Engine) (c c1 : Container) (d : String)
    (hc1 : Engine.findC e c.name = some c1)
    (h : goal_reached c.logs = ScanResult.outcome false d) :
    wait_goals e c false =
      (Engine.removeC e c.name, Except.error (DockerErr.containerExited c.name d)) := by
  simp [wait_goals, h, remove_container, hc1]

theorem wait_goals_timedOut (e : Engine) (c c1 : Container)
    (hc1 : Engine.findC e c.name = some c1) :
    wait_goals e c true =
      (Engine.removeC e c.name, Except.error (DockerErr.goalTimeout c.name)) := by
  simp [wait_goals, remove_container, hc1]

theorem findC_cons_self (e : Engine) (n s : String) (l : List String) :
    Engine.findC (Container.mk n s l :: e) n = some (Container.mk n s l) := by
  simp [Engine.findC, List.find?_cons]

theorem findC_map_update (e : Engine) (n : String) (c2 : Container)
    (h2 : c2.name = n) (h : (Engine.findC e n).isSome = true) :
    Engine.findC (e.map (fun x => if x.name == n then c2 else x)) n = some c2 := by
  induction e with
  | nil => simp [Engine.findC] at h
  | cons x xs ih =>
    by_cases hx : x.name = n
    · simp [Engine.findC, List.find?_cons, hx, h2]
    · have h2' : (Engine.findC xs n).isSome = true := by
        simpa [Engine.findC, List.find?_cons, hx] using h
      simpa [Engine.findC, List.find?_cons, hx] using ih h2'

theorem findC_name_eq {e : Engine} {n : String} {c : Container}
    (h : Engine.findC e n = some c) : c.name = n := by
  have := List.find?_some h
  simpa using this

/-! ## Claim theorems -/

/-- C1: for every runContainer/startContainer call whose goal-detection
protocol ends in failure (the scan returns reached=false, covering the
error-marker and stream-exhaustion outcomes) or in timeout, the controller
force-removes the newly started container before the error propagates, the
raised error is ContainerExitedError(name, detail) for the failure case and
ContainerGoalTimeout(name) for the timeout case, and no container with that
name remains in the engine. -/
theorem C1_failed_start_cleanup (e : Engine) (n : String) (logs : List String)
    (d : String) (c : Container) :
    (goal_reached logs = ScanResult.outcome false d →
      (run_container e n logs false).2 = Except.error (DockerErr.containerExited n d) ∧
      Engine.findC (run_container e n logs false).1 n = none) ∧
    ((run_container e n logs true).2 = Except.error (DockerErr.goalTimeout n) ∧
      Engine.findC (run_container e n logs true).1 n = none) ∧
    (Engine.findC e n = some c → goal_reached c.logs = ScanResult.outcome false d →
      (start_container e n false).2 = Except.error (DockerErr.containerExited n d) ∧
      Engine.findC (start_container e n false).1 n = none) ∧
    (Engine.findC e n = some c →
      (start_container e n true).2 = Except.error (DockerErr.goalTimeout n) ∧
      Engine.findC (start_container e n true).1 n = none) := by
  have hfind : Engine.findC (Container.mk n "running" logs :: e)
      (Container.mk n "running" logs).name = some (Container.mk n "running" logs) :=
    findC_cons_self e n "running" logs
  refine ⟨?_, ?_, ?_, ?_⟩
  · intro h
    have hw := wait_goals_failure (Container.mk n "running" logs :: e)
      (Container.mk n "running" logs) (Container.mk n "running" logs) d hfind h
    constructor
    · simp [run_container, hw]
    · simp [run_container, hw, findC_removeC]
  · have hw := wait_goals_timedOut (Container.mk n "running" logs :: e)
      (Container.mk n "running" logs) (Container.mk n "running" logs) hfind
    constructor
    · simp [run_container, hw]
    · simp [run_container, hw, findC_removeC]
  · intro hc h
    have hcn : c.name = n := findC_name_eq hc
    subst hcn
    have hupd : Engine.findC
        (e.map (fun x => if x.name == c.name then Container.mk c.name "running" c.logs else x))
        (Container.mk c.name "running" c.logs).name =
        some (Container.mk c.name "running" c.logs) :=
      findC_map_update e c.name (Container.mk c.name "running" c.logs) rfl (by simp [hc])
    have hw := wait_goals_failure
      (e.map (fun x => if x.name == c.name then Container.mk c.name "running" c.logs else x))
      (Container.mk c.name "running" c.logs) (Container.mk c.name "running" c.logs) d hupd h
    constructor
    · simp only [start_container, hc]
      rw [hw]
    · simp only [start_container, hc]
      rw [hw]
      exact findC_removeC _ _
  · intro hc
    have hcn : c.name = n := findC_name_eq hc
    subst hcn
    have hupd : Engine.findC
        (e.map (fun x => if x.name == c.name then Container.mk c.name "running" c.logs else x))
        (Container.mk c.name "running" c.logs).name =
        some (Container.mk c.name "running" c.logs) :=
      findC_map_update e c.name (Container.mk c.name "running" c.logs) rfl (by simp [hc])
    have hw := wait_goals_timedOut
      (e.map (fun x => if x.name == c.name then Container.mk c.name "running" c.logs else x))
      (Container.mk c.name "running" c.logs) (Container.mk c.name "running" c.logs) hupd
    constructor
    · simp only [start_container, hc]
      rw [hw]
    · simp only [start_container, hc]
      rw [hw]
      exact findC_removeC _ _

/-- C1 witness: concrete failed run (error-marker log) and concrete timeout
start, with the expected errors and the container absent afterwards. -/
theorem C1_failed_start_cleanup_witness :
    (run_container [] "cam-1" ["[ERROR] bad weights"] false).2 =
      Except.error (DockerErr.containerExited "cam-1" " bad weights") ∧
    Engine.findC (run_container [] "cam-1" ["[ERROR] bad weights"] false).1 "cam-1" = none := by
  exact (C1_failed_start_cleanup [] "cam-1" ["[ERROR] bad weights"] " bad weights"
    (Container.mk "cam-1" "running" [])).1 (by decide)

/-- C3 counterexample: the claim states that the line "[ERROR] bad weights"
yields detail "bad weights" and that exhaustion yields detail "final goal
not reached"; the scan actually yields " bad weights" (the split keeps the
leading space) and "Did not reach final goal". -/
theorem C3_scan_details_counterexample :
    goal_reached ["[ERROR] bad weights"] ≠ ScanResult.outcome false "bad weights" ∧
    goal_reached ["[ERROR] bad weights"] = ScanResult.outcome false " bad weights" ∧
    goal_reached [] ≠ ScanResult.outcome false "final goal not reached" ∧
    goal_reached [] = ScanResult.outcome false "Did not reach final goal" := by
  refine ⟨by decide, by decide, by decide, by decide⟩

/-- C3 amended: the first line containing "[ERROR" ends the scan with
reached=false and detail equal to the segment of that line after the first
"]" and before the next (whitespace preserved, so " bad weights" for
"[ERROR] bad weights"), or with an uncaught index error when the line has
no "]"; the first line containing "[SUCCESS 4]" (and not "[ERROR") ends it
with (true, ""); a line with neither marker is skipped; exhaustion ends it
with (false, "Did not reach final goal"). -/
theorem C3_scan_amended (line : String) (rest : List String) (d : String) :
    (strContains line "[ERROR" = true →
      (pySplit line ']').get? 1 = some d →
      goal_reached (line :: rest) = ScanResult.outcome false d) ∧
    (strContains line "[ERROR" = true →
      (pySplit line ']').get? 1 = none →
      goal_reached (line :: rest) = ScanResult.indexError) ∧
    (strContains line "[ERROR" = false →
      strContains line "[SUCCESS 4]" = true →
      goal_reached (line :: rest) = ScanResult.outcome true "") ∧
    (strContains line "[ERROR" = false →
      strContains line "[SUCCESS 4]" = false →
      goal_reached (line :: rest) = goal_reached rest) ∧
    goal_reached ([] : List String) = ScanResult.outcome false "Did not reach final goal" := by
  refine ⟨?_, ?_, ?_, ?_, rfl⟩
  · intro h1 h2
    rw [List.get?_eq_getElem?] at h2
    simp [goal_reached, h1, h2]
  · intro h1 h2
    rw [List.get?_eq_getElem?] at h2
    simp [goal_reached, h1, h2]
  · intro h1 h2
    simp [goal_reached, h1, h2]
  · intro h1 h2
    simp [goal_reached, h1, h2]

/-- C3 witness: the amended behavior evaluated on the concrete lines
"[ERROR] bad weights" and "[SUCCESS 4] ready" and on the empty stream. -/
theorem C3_scan_amended_witness :
    goal_reached ["[ERROR] bad weights"] = ScanResult.outcome false " bad weights" ∧
    goal_reached ["[SUCCESS 4] ready"] = ScanResult.outcome true "" ∧
    goal_reached ([] : List String) = ScanResult.outcome false "Did not reach final goal" :=
  ⟨(C3_scan_amended "[ERROR] bad weights" [] " bad weights").1 (by decide) (by decide),
   ((C3_scan_amended "[SUCCESS 4] ready" [] "").2.2.1 (by decide) (by decide)),
   (C3_scan_amended "" [] "").2.2.2.2⟩

/-- C7: removeContainer(name, force, timeout) fails with
ContainerNotFound(name) when the container is absent; otherwise it is
stopped with the grace timeout exactly when its engine-reported status is
not "exited", and then either removed forcibly (force=true, no wait) or
removed after waiting for the natural exit (force=false), the stop always
preceding the removal operations. -/
theorem C7_remove_container (e : Engine) (n : String) (force : Bool)
    (timeout : Nat) (c : Container) :
    (Engine.findC e n = none →
      remove_container e n force timeout = Except.error (DockerErr.containerNotFound n)) ∧
    (Engine.findC e n = some c →
      remove_container e n force timeout =
        Except.ok (Engine.removeC e n,
          (if c.status ≠ "exited" then [EngineOp.stop timeout] else []) ++
            (if force then [EngineOp.removeForce]
             else [EngineOp.waitExit, EngineOp.removePlain]))) := by
  constructor
  · intro h
    simp [remove_container, h]
  · intro h
    simp only [remove_container, h, wait_container_removal]
    by_cases hs : c.status = "exited" <;> simp [hs]

/-- C7 witness: concrete calls, one on an empty engine (ContainerNotFound)
and one on a running container with force=false (stop, wait, remove). -/
theorem C7_remove_container_witness :
    remove_container [] "cam-1" false 5 =
      Except.error (DockerErr.containerNotFound "cam-1") ∧
    remove_container [Container.mk "cam-1" "running" []] "cam-1" false 5 =
      Except.ok ([], [EngineOp.stop 5, EngineOp.waitExit, EngineOp.removePlain]) := by
  constructor
  · exact (C7_remove_container [] "cam-1" false 5 (Container.mk "cam-1" "running" [])).1
      (by decide)
  · have h := (C7_remove_container [Container.mk "cam-1" "running" []] "cam-1" false 5
      (Container.mk "cam-1" "running" [])).2 (by decide)
    simpa using h

/-- C2 code bug: the consume loop acknowledges the delivery when the
message.process() context exits, immediately after the fire-and-forget
scheduling of the handler and before the handler task has run, so in the
trace of one delivered message the acknowledgment strictly precedes the
handler completion, contradicting the claim (and the docstring of
AsyncRabbitMQClient.__consume) that the delivery is acknowledged only after
the handler completes. -/
theorem C2_ack_precedes_handler :
    consume_message_trace.indexOf Event.ackDelivery <
      consume_message_trace.indexOf Event.handlerCompleted ∧
    consume_message_trace = [Event.scheduleHandler, Event.ackDelivery, Event.handlerCompleted] := by
  refine ⟨by decide, by decide⟩

/-- C4: for every successfully handled message with a recognized action, a
REMOVE action publishes exactly one DeleteAck with the device id to the
delete-ack queue, and any other action publishes exactly one StatusAck with
code 2000 and state equal to the action name from the message body to the
status-ack queue. -/
theorem C4_success_acks (body : MessageBody) (a : Action)
    (ha : parseAction body.action = some a) :
    (a = Action.REMOVE →
      process_message body (Except.ok ()) =
        Except.ok [(QueueId.deleteQueue, Ack.deleteAck body.device_id)]) ∧
    (a ≠ Action.REMOVE →
      process_message body (Except.ok ()) =
        Except.ok [(QueueId.statusQueue,
          Ack.statusAck 2000 body.device_id body.action "OK")]) := by
  constructor
  · intro h
    simp [process_message, ha, h]
  · intro h
    simp [process_message, ha, h]

/-- C4 witness: a successful REMOVE publishes one DeleteAck to the delete
queue and a successful CREATE publishes one code-2000 StatusAck with state
"CREATE" to the status queue. -/
theorem C4_success_acks_witness :
    process_message (MessageBody.mk "REMOVE" "cam-1" none) (Except.ok ()) =
      Except.ok [(QueueId.deleteQueue, Ack.deleteAck "cam-1")] ∧
    process_message (MessageBody.mk "CREATE" "cam-2" (some "rtsp://x")) (Except.ok ()) =
      Except.ok [(QueueId.statusQueue, Ack.statusAck 2000 "cam-2" "CREATE" "OK")] :=
  ⟨(C4_success_acks (MessageBody.mk "REMOVE" "cam-1" none) Action.REMOVE (by decide)).1 rfl,
   (C4_success_acks (MessageBody.mk "CREATE" "cam-2" (some "rtsp://x")) Action.CREATE
      (by decide)).2 (by decide)⟩

/-- C5: for every message with a recognized action whose handler dispatch
fails, the dispatcher catches the failure (process_message still returns
normally), and publishes exactly one StatusAck with code 4000 and the
failure message to the status-ack queue, for every action kind including
REMOVE. -/
theorem C5_failure_acks (body : MessageBody) (a : Action) (err : String)
    (ha : parseAction body.action = some a) :
    process_message body (Except.error err) =
      Except.ok [(QueueId.statusQueue,
        Ack.statusAck 4000 body.device_id body.action err)] := by
  simp [process_message, ha]

/-- C5 witness: a failed REMOVE publishes one code-4000 StatusAck carrying
the failure message to the status queue, not the delete queue. -/
theorem C5_failure_acks_witness :
    process_message (MessageBody.mk "REMOVE" "cam-1" none)
        (Except.error "Container cam-1 not found") =
      Except.ok [(QueueId.statusQueue,
        Ack.statusAck 4000 "cam-1" "REMOVE" "Container cam-1 not found")] :=
  C5_failure_acks (MessageBody.mk "REMOVE" "cam-1" none) Action.REMOVE
    "Container cam-1 not found" (by decide)

/-- C6: constructing an Instance with updated_at < created_at is rejected
with DomainLogicError before any persistence, every successfully
constructed Instance satisfies created_at <= updated_at, persisting such
instances through the store create preserves the table invariant, and the
service update never commits any row at all, so no persisted Instance can
violate the invariant. -/
theorem C6_timestamp_invariant (id : String) (st : InstanceStatus) (c u : Int)
    (inst : Instance) (db db2 : Db) (rid : String) :
    (u < c → mkInstance id st c u = Except.error StoreErr.domainLogicError) ∧
    (mkInstance id st c u = Except.ok inst → inst.created_at ≤ inst.updated_at) ∧
    (rowInv db → inst.created_at ≤ inst.updated_at →
      service_create_instance db inst = Except.ok (db2, rid) → rowInv db2) ∧
    (∀ j, service_update_instance db inst ≠ Except.ok j) := by
  refine ⟨?_, ?_, ?_, ?_⟩
  · intro h
    simp [mkInstance, h]
  · intro h
    by_cases hc : u < c
    · simp [mkInstance, hc] at h
    · simp [mkInstance, hc] at h
      rw [← h]
      simpa using Int.not_lt.mp hc
  · intro hinv hts h
    simp only [service_create_instance, dao_create_instance] at h
    by_cases hp : (Db.findRow db inst.id).isSome
    · simp [hp] at h
    · simp [hp] at h
      rw [← h.1]
      intro r hr
      rcases List.mem_cons.mp hr with hr1 | hr2
      · rw [hr1]; exact hts
      · exact hinv r hr2
  · intro j
    simp [service_update_instance, dao_update_instance]

/-- C6 witness: the pair (created_at=5, updated_at=3) is rejected at
construction, and the valid pair (3, 5) is constructed and persisted into a
table that keeps the invariant. -/
theorem C6_timestamp_invariant_witness :
    mkInstance "cam-1" InstanceStatus.ACTIVE 5 3 = Except.error StoreErr.domainLogicError ∧
    rowInv [Instance.mk "cam-1" InstanceStatus.ACTIVE 3 5] := by
  constructor
  · exact (C6_timestamp_invariant "cam-1" InstanceStatus.ACTIVE 5 3
      (Instance.mk "cam-1" InstanceStatus.ACTIVE 3 5) [] [] "cam-1").1 (by decide)
  · exact (C6_timestamp_invariant "cam-1" InstanceStatus.ACTIVE 3 5
      (Instance.mk "cam-1" InstanceStatus.ACTIVE 3 5) [] [Instance.mk "cam-1" InstanceStatus.ACTIVE 3 5]
      "cam-1").2.2.1 (by intro r hr; simp at hr) (by decide) rfl

/-- C8 code bug evaluated: the DAO update re-executes its UPDATE query with
asdict(instance), a mapping of parameters, against positional placeholders,
so the driver raises a TypeError; hence for a present id the service update
raises driverTypeError instead of returning true and for an absent id it
raises driverTypeError instead of InstanceNotFound. Delete behaves as the
claim states: an absent id raises InstanceNotFound and a present id returns
true. -/
theorem C8_update_delete_eval :
    service_update_instance [Instance.mk "instance_device_4" InstanceStatus.ACTIVE 0 0]
        (Instance.mk "instance_device_4" InstanceStatus.INACTIVE 0 1) =
      Except.error StoreErr.driverTypeError ∧
    service_update_instance [] (Instance.mk "nonexistant" InstanceStatus.ACTIVE 0 0) =
      Except.error StoreErr.driverTypeError ∧
    service_delete_instance [] "nonexistant" =
      Except.error (StoreErr.instanceNotFound "nonexistant") ∧
    service_delete_instance [Instance.mk "instance_device_6" InstanceStatus.ACTIVE 0 0]
        "instance_device_6" =
      Except.ok ([], true) := by
  refine ⟨rfl, rfl, rfl, rfl⟩

/-- C9: persisting an Instance through the store create and retrieving it
by the returned id on the resulting table yields the very same Instance,
field for field. -/
theorem C9_create_get_roundtrip (db db2 : Db) (inst : Instance) (rid : String)
    (h : dao_create_instance db inst = Except.ok (db2, rid)) :
    dao_get_instance db2 rid = some inst := by
  simp only [dao_create_instance] at h
  by_cases hp : (Db.findRow db inst.id).isSome
  · simp [hp] at h
  · simp [hp] at h
    rw [← h.1, ← h.2]
    simp [dao_get_instance, Db.findRow, List.find?_cons]

/-- C9 witness: a concrete instance inserted into the empty table is
retrieved unchanged by the returned id. -/
theorem C9_create_get_roundtrip_witness :
    dao_get_instance [Instance.mk "instance_device_2" InstanceStatus.ACTIVE 10 10]
      "instance_device_2" =
      some (Instance.mk "instance_device_2" InstanceStatus.ACTIVE 10 10) :=
  C9_create_get_roundtrip []
    [Instance.mk "instance_device_2" InstanceStatus.ACTIVE 10 10]
    (Instance.mk "instance_device_2" InstanceStatus.ACTIVE 10 10)
    "instance_device_2" rfl

/-- C10: for every table and id the service get either raises
InstanceNotFound(id), exactly when the DAO returns None, or returns the
stored Instance; it never produces an absent value. -/
theorem C10_get_total (db : Db) (id : String) :
    (dao_get_instance db id = none ∧
      service_get_instance db id = Except.error (StoreErr.instanceNotFound id)) ∨
    (∃ inst, dao_get_instance db id = some inst ∧
      service_get_instance db id = Except.ok inst) := by
  cases h : dao_get_instance db id with
  | none => exact Or.inl ⟨rfl, by simp [service_get_instance, h]⟩
  | some inst => exact Or.inr ⟨inst, rfl, by simp [service_get_instance, h]⟩

end ImageProcessor
